import Mathlib

/-!
Verification of `script_generator.py` against its specification.

The script is a thin orchestrator: it validates CLI parameters
(`check_output_count`, `check_level`), builds one job input per requested
image, and runs `generate_single_image` for each job.  Each job constructs
a `Document` (from the external module `document`), calls `create`, `save`
and `save_ground_truth` on it, and on failure prints the document's seed
and re-raises.

Python integers are embedded as `Int` (argparse converts the command-line
string with `int(...)` before the validators run, so the validators'
domain is the integers).  Exceptions are embedded as `Except PyError`.
The external `Document` class is not part of the orchestration script, so
its methods are abstracted as an oracle (`DocOracle`) telling, for one
process run, which of the external calls succeed and which raise; the
spec's contracts for those externals are modelled where a claim needs
them.  Effects of a job (console prints, files written) are recorded in a
`JobTrace`.
-/

set_option autoImplicit false

namespace ScriptGenerator

/-- Embedded Python exceptions.  `argumentTypeError` is
`argparse.ArgumentTypeError`, `exc` is an arbitrary exception raised by an
external call (carrying a description), and `unboundLocalError` is the
`UnboundLocalError` Python raises when a local variable is read before any
assignment to it has executed. -/
inductive PyError where
  | argumentTypeError : String → PyError
  | exc : String → PyError
  | unboundLocalError : PyError
deriving DecidableEq, Repr

/-- Modelled from the spec: an output artifact of the Persistence Layer.
`document.py` is not part of the orchestration script; per the spec, `save`
writes the composite image and `save_ground_truth` writes the binary mask,
both under the given base directory with a filename derived from the
document's seed. -/
inductive Artifact where
  | image : String → Nat → Artifact
  | groundTruth : String → Nat → Artifact
deriving DecidableEq, Repr

/-- Modelled from the spec: the external `Document` object (class
`Document` of module `document`, absent from the orchestration script).
It carries the random seed allocated at construction and the two ordinal
difficulty parameters. -/
structure Document where
  random_seed : Nat
  stain_level : Int
  text_noise_level : Int
deriving DecidableEq, Repr

/-- The parsed argparse namespace: fields set by the four
`parser.add_argument` calls in `main`. -/
structure Args where
  output_count : Int
  stain_level : Int
  text_noise_level : Int
  output_dir : String
deriving DecidableEq, Repr

/-- The dictionary passed to each pool worker:
`lambda x: \x7b'iter': x, 'args': args\x7d` in `main`. -/
structure FnArgs where
  iter : Nat
  args : Args
deriving DecidableEq, Repr

deriving instance DecidableEq for Except

/-- The observable behaviour of one `generate_single_image` call: lines
printed to stdout, artifacts persisted, and normal return or raised
exception. -/
structure JobTrace where
  printed : List String
  writes : List Artifact
  result : Except PyError Unit
deriving DecidableEq, Repr

/-- The `ArgumentTypeError` message of `check_output_count`.  The source
concatenates two adjacent string literals with no space, so the message
really reads "number ofimages". -/
def countError : PyError :=
  PyError.argumentTypeError "There must be a positive number ofimages generated"

/-- The `ArgumentTypeError` message of `check_level`. -/
def levelError : PyError :=
  PyError.argumentTypeError "Level values must be between 1 and 5"

/-- Embedding of `check_output_count` (script_generator.py lines 27-39):
after `int(...)` conversion, raise `ArgumentTypeError` when the value is
below 1, otherwise return the value. -/
def check_output_count (value : Int) : Except PyError Int :=
  if value < 1 then Except.error countError
  else Except.ok value

/-- Embedding of `check_level` (script_generator.py lines 42-55): after
`int(...)` conversion, raise `ArgumentTypeError` when the value is outside
[1, 5], otherwise return the value. -/
def check_level (value : Int) : Except PyError Int :=
  if value < 1 ∨ value > 5 then Except.error levelError
  else Except.ok value

/-- Embedding of the module-level constant
`DEFAULT_DIR = "/data/synthetic_trial_" + str(random.randint(10000, 100000))`
(script_generator.py line 24).  The draw of the global unseeded generator
happens once at module import; it is embedded as the parameter `r`, which
`random.randint` constrains to `10000 ≤ r ≤ 100000` (both bounds
inclusive). -/
def DEFAULT_DIR (r : Nat) : String :=
  "/data/synthetic_trial_" ++ toString r

/-- Embedding of `parser.parse_args()` on the four arguments declared in
`main` (script_generator.py lines 88-99).  Each positional has
`nargs='?'`; when the token is absent argparse uses the declared default
verbatim (5, 1, 1), and when present it applies the `type` callable
(`check_output_count` or `check_level`), positionals first in declaration
order.  `--output_dir` has no `type`, so its string is taken as is,
defaulting to the module-level `DEFAULT_DIR` value passed in as
`default_dir`. -/
def parseArgs (output_count stain_level text_noise_level : Option Int)
    (output_dir : Option String) (default_dir : String) : Except PyError Args :=
  match (match output_count with
         | none => Except.ok 5
         | some v => check_output_count v) with
  | Except.error e => Except.error e
  | Except.ok oc =>
    match (match stain_level with
           | none => Except.ok 1
           | some v => check_level v) with
    | Except.error e => Except.error e
    | Except.ok sl =>
      match (match text_noise_level with
             | none => Except.ok 1
             | some v => check_level v) with
      | Except.error e => Except.error e
      | Except.ok tnl =>
        Except.ok { output_count := oc, stain_level := sl,
                    text_noise_level := tnl,
                    output_dir := output_dir.getD default_dir }

/-- Modelled from the spec: the behaviour, within one process run, of the
four external calls a job makes (`Document(...)`, `create`, `save`,
`save_ground_truth`; all in `document.py`, which is not part of the
orchestration script).  `constructDoc` additionally receives the job index
standing for the per-instance entropy of the Seed Allocator (each worker
call constructs its own `Document`).  A successful `save` persists the
composite image; a successful `save_ground_truth` persists the mask; a
failing call persists nothing (the spec's `IOError`/`PersistenceError`
contract). -/
structure DocOracle where
  constructDoc : Nat → Int → Int → Except PyError Document
  createDoc : Document → Except PyError Unit
  saveDoc : Document → String → Except PyError Unit
  save_ground_truth : Document → String → Except PyError Unit

/-- The banner `generate_single_image` prints first:
`"Generating image #" + str(iter + 1)` in Python's format-string form. -/
def jobHeader (i : Nat) : String :=
  "Generating image #" ++ toString (i + 1)

/-- Embedding of `generate_single_image` (script_generator.py lines
58-78).  The body prints the banner, then runs the four external calls in
order inside `try`.  The `except` clause executes
`print(document.random_seed)` and then `raise exception`; when the
`Document(...)` constructor itself raised, the local `document` was never
assigned, so the `print` raises `UnboundLocalError` and the original
exception is replaced.  Writes already performed before the failing call
remain on disk. -/
def generate_single_image (o : DocOracle) (fn_args : FnArgs) : JobTrace :=
  match o.constructDoc fn_args.iter fn_args.args.stain_level
      fn_args.args.text_noise_level with
  | Except.error _ =>
      { printed := [jobHeader fn_args.iter], writes := [],
        result := Except.error PyError.unboundLocalError }
  | Except.ok document =>
    match o.createDoc document with
    | Except.error e =>
        { printed := [jobHeader fn_args.iter, toString document.random_seed],
          writes := [],
          result := Except.error e }
    | Except.ok _ =>
      match o.saveDoc document fn_args.args.output_dir with
      | Except.error e =>
          { printed := [jobHeader fn_args.iter, toString document.random_seed],
            writes := [],
            result := Except.error e }
      | Except.ok _ =>
        match o.save_ground_truth document fn_args.args.output_dir with
        | Except.error e =>
            { printed := [jobHeader fn_args.iter, toString document.random_seed],
              writes := [Artifact.image fn_args.args.output_dir document.random_seed],
              result := Except.error e }
        | Except.ok _ =>
            { printed := [jobHeader fn_args.iter],
              writes := [Artifact.image fn_args.args.output_dir document.random_seed,
                         Artifact.groundTruth fn_args.args.output_dir document.random_seed],
              result := Except.ok () }

/-- Embedding of the job-input list built in `main` (script_generator.py
lines 106-108): `list(map(lambda x: \x7b'iter': x, 'args': args\x7d,
range(args.output_count)))`. -/
def jobInputs (args : Args) : List FnArgs :=
  (List.range args.output_count.toNat).map (fun x => { iter := x, args := args })

/-- Embedding of the `pool.map(generate_single_image, ...)` dispatch
(script_generator.py lines 104-108): the job function applied to every
job input.  Only the per-job work is embedded; the pool's scheduling and
its collection of results are concurrency mechanics of `multiprocessing`
and are not modelled. -/
def runBatch (o : DocOracle) (args : Args) : List JobTrace :=
  (jobInputs args).map (generate_single_image o)

/-- Embedding of `main` (script_generator.py lines 81-108): parse and
validate the arguments (argparse exits on a validation error, before the
pool exists), then dispatch the batch. -/
def main (o : DocOracle) (output_count stain_level text_noise_level : Option Int)
    (output_dir : Option String) (default_dir : String) :
    Except PyError (List JobTrace) :=
  match parseArgs output_count stain_level text_noise_level output_dir default_dir with
  | Except.error e => Except.error e
  | Except.ok args => Except.ok (runBatch o args)

/-- Modelled from the spec: the Seed Allocator (it lives inside
`document.py`, not in the orchestration script).  Given a batch-wide
entropy value and the 0-based batch index, it produces a seed that is
reproducible from those two values and unique within the batch. -/
def allocateSeed (entropy i : Nat) : Nat :=
  entropy + i

/-- The seed each job of a batch receives: job `f` constructs one
`Document`, whose seed the Seed Allocator derives from the batch entropy
and the job's index. -/
def jobSeeds (entropy : Nat) (args : Args) : List Nat :=
  (jobInputs args).map (fun f => allocateSeed entropy f.iter)

/-- Concrete parsed arguments used by witnesses and counterexamples. -/
def argsEx : Args :=
  { output_count := 5, stain_level := 1, text_noise_level := 1,
    output_dir := "/data/out" }

/-- Concrete job input used by witnesses and counterexamples. -/
def jobEx : FnArgs := { iter := 0, args := argsEx }

/-- A concrete document for the oracle instances below. -/
def docEx : Document :=
  { random_seed := 7, stain_level := 1, text_noise_level := 1 }

/-- Oracle in which every external call succeeds. -/
def okOracle : DocOracle :=
  { constructDoc := fun _ s t =>
      Except.ok { random_seed := 7, stain_level := s, text_noise_level := t },
    createDoc := fun _ => Except.ok (),
    saveDoc := fun _ _ => Except.ok (),
    save_ground_truth := fun _ _ => Except.ok () }

/-- Oracle in which the `Document(...)` constructor raises. -/
def constructFailOracle : DocOracle :=
  { constructDoc := fun _ _ _ => Except.error (PyError.exc "SynthesisError"),
    createDoc := fun _ => Except.ok (),
    saveDoc := fun _ _ => Except.ok (),
    save_ground_truth := fun _ _ => Except.ok () }

/-- Oracle in which `save` succeeds but `save_ground_truth` raises. -/
def gtFailOracle : DocOracle :=
  { constructDoc := fun _ s t =>
      Except.ok { random_seed := 7, stain_level := s, text_noise_level := t },
    createDoc := fun _ => Except.ok (),
    saveDoc := fun _ _ => Except.ok (),
    save_ground_truth := fun _ _ => Except.error (PyError.exc "PersistenceError") }

/-- Claim C2 (code bug): when the `Document(...)` constructor itself
raises, the job's handler does not report a seed and does not re-raise the
original exception; reading the unassigned local `document` raises
`UnboundLocalError` instead, so only the banner is printed and the
original exception is lost. -/
theorem C2_constructor_failure_loses_seed :
    (generate_single_image constructFailOracle jobEx).result
        = Except.error PyError.unboundLocalError ∧
    (generate_single_image constructFailOracle jobEx).result
        ≠ Except.error (PyError.exc "SynthesisError") ∧
    (generate_single_image constructFailOracle jobEx).printed
        = ["Generating image #1"] := by
  decide

/-- Counterexample to claim C3 as stated: a run of a job in which `save`
succeeds and `save_ground_truth` then raises leaves the composite image
persisted while the ground-truth mask is not, and the job fails. -/
theorem C3_counterexample :
    Artifact.image "/data/out" 7 ∈ (generate_single_image gtFailOracle jobEx).writes ∧
    Artifact.groundTruth "/data/out" 7 ∉ (generate_single_image gtFailOracle jobEx).writes ∧
    (generate_single_image gtFailOracle jobEx).result
        = Except.error (PyError.exc "PersistenceError") := by
  decide

/-- Claim C3 (amended): a job that completes successfully writes exactly
the image/mask pair (same base directory, same seed), and the mask is
never written without its image; but the image can be left written without
the mask when `save_ground_truth` fails after `save` succeeded. -/
theorem C3_pair_on_success (o : DocOracle) (f : FnArgs) :
    ((generate_single_image o f).result = Except.ok () →
      ∃ s, (generate_single_image o f).writes =
        [Artifact.image f.args.output_dir s,
         Artifact.groundTruth f.args.output_dir s]) ∧
    (∀ d s, Artifact.groundTruth d s ∈ (generate_single_image o f).writes →
      Artifact.image d s ∈ (generate_single_image o f).writes ∧
      (generate_single_image o f).result = Except.ok ()) := by
  rcases hc : o.constructDoc f.iter f.args.stain_level f.args.text_noise_level
    with e | document
  · simp [generate_single_image, hc]
  · rcases hcr : o.createDoc document with e | u
    · simp [generate_single_image, hc, hcr]
    · rcases hs : o.saveDoc document f.args.output_dir with e | u2
      · simp [generate_single_image, hc, hcr, hs]
      · rcases hg : o.save_ground_truth document f.args.output_dir with e | u3
        · simp [generate_single_image, hc, hcr, hs, hg]
        · refine ⟨fun _ => ⟨document.random_seed, ?_⟩, ?_⟩
          · simp [generate_single_image, hc, hcr, hs, hg]
          · intro d s hmem
            simp only [generate_single_image, hc, hcr, hs, hg, List.mem_cons,
              List.not_mem_nil, or_false, Artifact.groundTruth.injEq] at hmem ⊢
            rcases hmem with h | h
            · exact absurd h (by simp)
            · obtain ⟨rfl, rfl⟩ := h
              simp

/-- Witness for claim C3: a fully successful job persists the image, so
the amended pairing property is inhabited at a concrete input. -/
theorem C3_pair_witness :
    Artifact.image "/data/out" 7 ∈ (generate_single_image okOracle jobEx).writes ∧
    (generate_single_image okOracle jobEx).result = Except.ok () :=
  (C3_pair_on_success okOracle jobEx).2 "/data/out" 7 (by decide)

/-- Claim C4: `check_level` raises the invalid-parameter error exactly
when the integer input lies outside [1, 5], returns the input unchanged
otherwise, and is the validator argparse applies to both the `stain_level`
and the `text_noise_level` positionals. -/
theorem C4_check_level_iff (v : Int) :
    (check_level v = Except.error levelError ↔ v < 1 ∨ 5 < v) ∧
    (1 ≤ v → v ≤ 5 → check_level v = Except.ok v) ∧
    (∀ dd : String, v < 1 ∨ 5 < v →
      parseArgs (some 5) (some v) (some 1) none dd = Except.error levelError ∧
      parseArgs (some 5) (some 1) (some v) none dd = Except.error levelError) := by
  refine ⟨?_, ?_, ?_⟩
  · unfold check_level
    by_cases h : v < 1 ∨ v > 5
    · rw [if_pos h]
      exact iff_of_true rfl h
    · rw [if_neg h]
      exact iff_of_false (by simp) h
  · intro h1 h2
    unfold check_level
    rw [if_neg (by omega)]
  · intro dd h
    have h5 : check_output_count 5 = Except.ok 5 := by decide
    have h1ok : check_level 1 = Except.ok 1 := by decide
    have hv : check_level v = Except.error levelError := by
      unfold check_level
      rw [if_pos h]
    exact ⟨by simp [parseArgs, h5, hv], by simp [parseArgs, h5, h1ok, hv]⟩

/-- Witness for claim C4: concrete inputs on both sides of the contract
(3 is accepted and returned; 0 as either level is rejected). -/
theorem C4_witness :
    check_level 3 = Except.ok 3 ∧
    parseArgs (some 5) (some 0) (some 1) none "d" = Except.error levelError :=
  ⟨(C4_check_level_iff 3).2.1 (by decide) (by decide),
   ((C4_check_level_iff 0).2.2 "d" (Or.inl (by decide))).1⟩

/-- Claim C5: `check_output_count` raises the count-validation error
exactly when the integer input is below 1, returns the input unchanged
otherwise, and an invalid count makes `main` fail during argument parsing,
before any job input is built or dispatched. -/
theorem C5_check_output_count_iff (v : Int) :
    (check_output_count v = Except.error countError ↔ v < 1) ∧
    (1 ≤ v → check_output_count v = Except.ok v) ∧
    (v < 1 → ∀ (o : DocOracle) (s t : Option Int) (d : Option String) (dd : String),
      main o (some v) s t d dd = Except.error countError) := by
  refine ⟨?_, ?_, ?_⟩
  · unfold check_output_count
    by_cases h : v < 1
    · rw [if_pos h]
      exact iff_of_true rfl h
    · rw [if_neg h]
      exact iff_of_false (by simp) h
  · intro h1
    unfold check_output_count
    rw [if_neg (by omega)]
  · intro h o s t d dd
    have hv : check_output_count v = Except.error countError := by
      unfold check_output_count
      rw [if_pos h]
    simp [main, parseArgs, hv]

/-- Witness for claim C5: 2 is accepted and returned, and a requested
count of 0 aborts `main` with the count-validation error. -/
theorem C5_witness :
    check_output_count 2 = Except.ok 2 ∧
    main okOracle (some 0) none none none "d" = Except.error countError :=
  ⟨(C5_check_output_count_iff 2).2.1 (by decide),
   (C5_check_output_count_iff 0).2.2 (by decide) okOracle none none none "d"⟩

/-- Claim C6 (seed allocation modelled from the spec): within one batch,
the seeds the jobs receive are pairwise distinct — the job-seed list has
no duplicate, and it has one entry per job. -/
theorem C6_seed_uniqueness (entropy : Nat) (args : Args) :
    (jobSeeds entropy args).Nodup ∧
    (jobSeeds entropy args).length = (jobInputs args).length := by
  constructor
  · unfold jobSeeds jobInputs
    rw [List.map_map]
    refine List.Nodup.map ?_ (List.nodup_range _)
    intro a b h
    simpa [allocateSeed] using h
  · simp [jobSeeds]

/-- Claim C7: for a validated count N, `main` builds exactly N job
inputs, the i-th carrying index i and the shared parsed arguments (hence
the batch's shared stain and text-noise levels), and the batch dispatch
applies `generate_single_image` to each of them. -/
theorem C7_batch_construction (o : DocOracle) (args : Args)
    (h : 1 ≤ args.output_count) :
    ((jobInputs args).length : Int) = args.output_count ∧
    (∀ i : Nat, ∀ hlt : i < (jobInputs args).length,
      (jobInputs args).get ⟨i, hlt⟩ = { iter := i, args := args }) ∧
    (runBatch o args).length = (jobInputs args).length ∧
    (∀ i : Nat, ∀ hlt : i < (runBatch o args).length,
      ∃ hlt2 : i < (jobInputs args).length,
        (runBatch o args).get ⟨i, hlt⟩ =
          generate_single_image o ((jobInputs args).get ⟨i, hlt2⟩)) := by
  refine ⟨?_, ?_, ?_, ?_⟩
  · simp only [jobInputs, List.length_map, List.length_range]
    omega
  · intro i hlt
    simp [jobInputs]
  · simp [runBatch]
  · intro i hlt
    have hlt2 : i < (jobInputs args).length := by
      simpa [runBatch] using hlt
    exact ⟨hlt2, by simp [runBatch]⟩

/-- Witness for claim C7: with the sample arguments (count 5) the batch
has exactly 5 job inputs. -/
theorem C7_witness :
    ((jobInputs argsEx).length : Int) = argsEx.output_count :=
  (C7_batch_construction okOracle argsEx (by decide)).1

/-- Claim C8: omitting all positional arguments parses to
output_count = 5, stain_level = 1 and text_noise_level = 1 (with the
module-level default directory for `--output_dir`). -/
theorem C8_defaults (dd : String) :
    parseArgs none none none none dd =
      Except.ok { output_count := 5, stain_level := 1, text_noise_level := 1,
                  output_dir := dd } :=
  rfl

/-- Claim C9: for every admissible draw r of
`random.randint(10000, 100000)` (both bounds inclusive), the default
directory is the string "/data/synthetic_trial_" followed by the decimal
digits of r; every parse that omits `--output_dir` adopts it, every job of
such a batch carries it, and distinct admissible draws yield distinct
directories, so the default is not determined by the program's inputs. -/
theorem C9_default_dir (r : Nat) (_h1 : 10000 ≤ r) (_h2 : r ≤ 100000) :
    DEFAULT_DIR r = "/data/synthetic_trial_" ++ toString r ∧
    (∀ (c s t : Option Int) (args : Args),
      parseArgs c s t none (DEFAULT_DIR r) = Except.ok args →
      args.output_dir = DEFAULT_DIR r) ∧
    (∀ args : Args, args.output_dir = DEFAULT_DIR r →
      ∀ f ∈ jobInputs args, f.args.output_dir = DEFAULT_DIR r) ∧
    (∃ r1 r2 : Nat, 10000 ≤ r1 ∧ r1 ≤ 100000 ∧ 10000 ≤ r2 ∧ r2 ≤ 100000 ∧
      DEFAULT_DIR r1 ≠ DEFAULT_DIR r2) := by
  refine ⟨rfl, ?_, ?_,
    ⟨10000, 10001, by decide, by decide, by decide, by decide, by decide⟩⟩
  · intro c s t args hok
    unfold parseArgs at hok
    split at hok
    · simp at hok
    · split at hok
      · simp at hok
      · split at hok
        · simp at hok
        · rw [Except.ok.injEq] at hok
          subst hok
          rfl
  · intro args hdir f hf
    simp only [jobInputs, List.mem_map, List.mem_range] at hf
    obtain ⟨x, hx, rfl⟩ := hf
    exact hdir

/-- Witness for claim C9: the concrete draw 12345 is admissible and
yields the expected directory string. -/
theorem C9_witness :
    DEFAULT_DIR 12345 = "/data/synthetic_trial_" ++ toString 12345 :=
  (C9_default_dir 12345 (by decide) (by decide)).1

/-- Claim C10: both validators are the identity on their accepted
domains, hence idempotent there: revalidating an accepted value accepts it
again unchanged (the Lean embedding is a pure function, as are the Python
originals, which read and write no state). -/
theorem C10_validators_identity (v : Int) :
    (1 ≤ v → v ≤ 5 →
      check_level v = Except.ok v ∧
      (check_level v).bind check_level = Except.ok v) ∧
    (1 ≤ v →
      check_output_count v = Except.ok v ∧
      (check_output_count v).bind check_output_count = Except.ok v) := by
  constructor
  · intro h1 h2
    have hl : check_level v = Except.ok v := by
      unfold check_level
      rw [if_neg (by omega)]
    refine ⟨hl, ?_⟩
    rw [hl]
    exact hl
  · intro h1
    have hc : check_output_count v = Except.ok v := by
      unfold check_output_count
      rw [if_neg (by omega)]
    refine ⟨hc, ?_⟩
    rw [hc]
    exact hc

/-- Witness for claim C10: both validators return 3 unchanged. -/
theorem C10_witness :
    check_level 3 = Except.ok 3 ∧ check_output_count 3 = Except.ok 3 :=
  ⟨((C10_validators_identity 3).1 (by decide) (by decide)).1,
   ((C10_validators_identity 3).2 (by decide)).1⟩

end ScriptGenerator
